import Mathlib

/-!
Verification of `zapcore/write_syncer.go` (package zapcore of hnlq715/zap).

The file embeds the write-sink abstraction and its three wrappers — the
`AddSync` adapter, the `Lock` exclusive-access wrapper, the `Buffer`
buffering wrapper (over Go's `bufio.Writer`), and the `multiWriteSyncer`
fan-out wrapper — and proves the spec's claims about them.

Modelling conventions:
* Bytes are `Nat`; a byte slice is a `List Nat`.
* A Go `error` value is a `List Err`, where `[]` is Go's `nil` error and a
  non-empty list is a non-nil (possibly aggregated) error.
  `go.uber.org/multierr`'s `Append` keeps every constituent error of both
  arguments in order and returns `nil` only when both are `nil`, which is
  exactly list append on this representation.
* A destination sink (an `io.Writer` / `WriteSyncer` leaf) is modelled by
  `Sink`: a log of the writes it has received so far, a count of Sync calls,
  and pure behaviour functions giving the `(n, err)` result of a write and
  the error of a Sync.  Calling `write`/`sync` returns the updated sink, so
  stateful Go calls become explicit state passing.
-/

/-- Error values. `tag n` is an arbitrary distinct error; `shortWrite` is
`io.ErrShortWrite` produced inside `bufio.Writer.Flush`; `diverge` marks the
one behaviour our fuel-bounded model cannot reproduce: Go's
`bufio.Writer.Write` loops forever when the inner writer keeps returning
`(0, nil)` for an oversized payload. -/
inductive Err where
  | tag : Nat → Err
  | shortWrite : Err
  | diverge : Err
deriving DecidableEq, Repr

/-- A destination sink: the state it has accumulated (`log`, `synced`) plus
its behaviour (`writeRes`, `syncRes`). -/
structure Sink where
  log : List (List Nat)
  synced : Nat
  writeRes : List Nat → Nat × List Err
  syncRes : List Err

/-- Calling `Write(p)` on a destination: the write is recorded in the log and
the sink's behaviour determines the returned count and error. -/
def Sink.write (s : Sink) (p : List Nat) : Sink × Nat × List Err :=
  ({ s with log := s.log ++ [p] }, (s.writeRes p).1, (s.writeRes p).2)

/-- Calling `Sync()` on a destination. -/
def Sink.sync (s : Sink) : Sink × List Err :=
  ({ s with synced := s.synced + 1 }, s.syncRes)

/-- Flattening a list of error values into one aggregated error, the result
of repeated `multierr.Append`. -/
def joinErrs : List (List Err) → List Err
  | [] => []
  | e :: es => e ++ joinErrs es

/-- Loop body of `multiWriteSyncer.Write` (write_syncer.go lines 207-220):
for each sink `w` in order run `n, err := w.Write(p)`, aggregate the error
with `multierr.Append`, and update `nWritten` by
`if nWritten == 0 && n != 0 { nWritten = n } else if n < nWritten
{ nWritten = n }`.  Returns the updated sinks together with the final
`(nWritten, writeErr)`. -/
def multiWriteGo : List Sink → List Nat → Nat → List Err → List Sink × Nat × List Err
  | [], _, nWritten, writeErr => ([], nWritten, writeErr)
  | w :: ws, p, nWritten, writeErr =>
    let r := w.write p
    let writeErr := writeErr ++ r.2.2
    let nWritten :=
      if nWritten = 0 ∧ r.2.1 ≠ 0 then r.2.1
      else if r.2.1 < nWritten then r.2.1
      else nWritten
    let rest := multiWriteGo ws p nWritten writeErr
    (r.1 :: rest.1, rest.2.1, rest.2.2)

/-- `multiWriteSyncer.Write`: the loop starts from `nWritten := 0` and a nil
`writeErr`. -/
def multiWrite (ws : List Sink) (p : List Nat) : List Sink × Nat × List Err :=
  multiWriteGo ws p 0 []

/-- Loop body of `multiWriteSyncer.Sync` (write_syncer.go lines 222-228):
`err = multierr.Append(err, w.Sync())` for each sink in order. -/
def multiSyncGo : List Sink → List Err → List Sink × List Err
  | [], err => ([], err)
  | w :: ws, err =>
    let r := w.sync
    let err := err ++ r.2
    let rest := multiSyncGo ws err
    (r.1 :: rest.1, rest.2)

/-- `multiWriteSyncer.Sync` starts from a nil error. -/
def multiSync (ws : List Sink) : List Sink × List Err :=
  multiSyncGo ws []

/-- The update the code applies to `nWritten` for one sink's count `n`. -/
def countStep (nWritten n : Nat) : Nat :=
  if nWritten = 0 ∧ n ≠ 0 then n
  else if n < nWritten then n
  else nWritten

/-- The count the code computes, as a standalone function of the per-sink
counts in sequence order. -/
def countPolicy (ns : List Nat) : Nat := ns.foldl countStep 0

/-- Modelled from the claim's and spec's words, for comparison with the code:
"take the first non-zero count seen; thereafter, if any subsequent sink
reports a smaller count, that smaller value becomes the new reported count."
The Boolean component records whether a non-zero count has been seen. -/
def tieBreakSpec (ns : List Nat) : Nat :=
  (ns.foldl
    (fun acc n =>
      if acc.1 then (if n < acc.2 then (true, n) else acc)
      else (if n ≠ 0 then (true, n) else acc))
    (false, 0)).2

/-- The result type of `NewMultiWriteSyncer`: either the single sink itself
(returned directly when the argument list has length one) or the fan-out
wrapper holding the list (the Go code copies the slice; lists are values
here, so the defensive copy is the identity). -/
inductive MWS where
  | single : Sink → MWS
  | multi : List Sink → MWS

/-- `NewMultiWriteSyncer` (write_syncer.go lines 195-201): a one-element
argument list returns that sink directly; any other length, the empty list
included, returns the fan-out wrapper. -/
def NewMultiWriteSyncer : List Sink → MWS
  | [w] => .single w
  | ws => .multi ws

/-- A destination with a fresh state and the given behaviour. -/
def mkSink (wr : List Nat → Nat × List Err) (sr : List Err) : Sink :=
  { log := [], synced := 0, writeRes := wr, syncRes := sr }

/-- Three destinations for a 5-byte payload: the first accepts 3 bytes and
errors (a short write), the second accepts nothing and errors, the third
accepts all 5 bytes cleanly.  Per-sink counts in order: 3, 0, 5. -/
def cexSinks : List Sink :=
  [mkSink (fun _ => (3, [Err.tag 1])) [],
   mkSink (fun _ => (0, [Err.tag 2])) [],
   mkSink (fun p => (p.length, [])) []]

/-- The destination that accepts every write cleanly (`sinkA` of the spec's
fan-out scenario). -/
def sinkA : Sink := mkSink (fun p => (p.length, [])) []

/-- The destination that accepts every write but reports `errX`
(`sinkB` of the spec's fan-out scenario, with `errX := Err.tag 7`). -/
def sinkB : Sink := mkSink (fun p => (p.length, [Err.tag 7])) []

/-- Modelled from Go's standard library `bufio.Writer` (the buffering
wrapper delegates to it): `wr` is the inner destination, `size` the buffer
capacity (`len(b.buf)`), `buf` the currently buffered bytes
(`b.buf[0:b.n]`), and `err` the sticky error (`b.err`, nil as `[]`). -/
structure BufioWriter where
  wr : Sink
  size : Nat
  buf : List Nat
  err : List Err

/-- `bufio.Writer.Available()`: free room in the buffer. -/
def BufioWriter.available (b : BufioWriter) : Nat := b.size - b.buf.length

/-- `bufio.Writer.Buffered()`: number of bytes currently buffered. -/
def BufioWriter.buffered (b : BufioWriter) : Nat := b.buf.length

/-- `bufio.Writer.Flush()`: with a sticky error, return it; with an empty
buffer, succeed; otherwise write the buffered bytes to the inner
destination in one call, turning a short count without error into
`io.ErrShortWrite`; on failure keep the unwritten tail buffered and make the
error sticky, on success empty the buffer. -/
def BufioWriter.flush (b : BufioWriter) : BufioWriter × List Err :=
  if b.err ≠ [] then (b, b.err)
  else if b.buf.length = 0 then (b, [])
  else
    let r := b.wr.write b.buf
    let e := if r.2.1 < b.buf.length ∧ r.2.2 = [] then [Err.shortWrite] else r.2.2
    if e ≠ [] then
      ({ b with wr := r.1, buf := b.buf.drop r.2.1, err := e }, e)
    else
      ({ b with wr := r.1, buf := [] }, [])

/-- Loop of `bufio.Writer.Write(p)`, with `nn` the bytes consumed so far.
While `len(p) > b.Available() && b.err == nil`: with an empty buffer the
payload is written directly to the inner destination (a large write is not
split by the buffer); otherwise the free room is topped up from `p` and the
buffer flushed (the flush error lands in the sticky `err`).  After the
loop, a sticky error is returned, else the remaining payload is copied into
the buffer.  The fuel only bounds the one case in which the Go loop does
not terminate (an inner writer forever returning `(0, nil)` on an oversized
payload), where it stops with `Err.diverge`. -/
def BufioWriter.writeAux : Nat → BufioWriter → List Nat → Nat → BufioWriter × Nat × List Err
  | 0, b, _, nn => (b, nn, [Err.diverge])
  | fuel + 1, b, p, nn =>
    if p.length > b.available ∧ b.err = [] then
      if b.buf.length = 0 then
        let r := b.wr.write p
        BufioWriter.writeAux fuel { b with wr := r.1, err := r.2.2 }
          (p.drop r.2.1) (nn + r.2.1)
      else
        let n := min b.available p.length
        let f := BufioWriter.flush { b with buf := b.buf ++ p.take n }
        BufioWriter.writeAux fuel f.1 (p.drop n) (nn + n)
    else
      if b.err ≠ [] then (b, nn, b.err)
      else
        let n := min b.available p.length
        ({ b with buf := b.buf ++ p.take n }, nn + n, [])

/-- `bufio.Writer.Write(p)`: the loop dispenses with at most one
buffer-filling iteration plus one per byte of `p`, so this fuel reproduces
every terminating Go behaviour. -/
def BufioWriter.write (b : BufioWriter) (p : List Nat) : BufioWriter × Nat × List Err :=
  BufioWriter.writeAux (p.length + 2) b p 0

/-- `bufferWriterSyncer.Write` (write_syncer.go lines 135-149): when the
payload does not fit in the free room and the buffer is non-empty, flush
the buffered bytes first, returning `(0, err)` if that flush fails; then
delegate to the buffered writer. -/
def bufferWrite (b : BufioWriter) (p : List Nat) : BufioWriter × Nat × List Err :=
  if p.length > b.available ∧ 0 < b.buffered then
    let f := b.flush
    if f.2 ≠ [] then (f.1, 0, f.2)
    else f.1.write p
  else
    b.write p

/-- `bufferWriterSyncer` state: the buffered writer plus the lifecycle
fields `ticker` (running until stopped) and `stop` (closed once). -/
structure BufferWriterSyncer where
  bufferWriter : BufioWriter
  tickerStopped : Bool
  stopClosed : Bool

/-- `bufferWriterSyncer.Sync` (write_syncer.go lines 152-157): flush the
buffered writer. -/
def BufferWriterSyncer.Sync (s : BufferWriterSyncer) : BufferWriterSyncer × List Err :=
  let f := s.bufferWriter.flush
  ({ s with bufferWriter := f.1 }, f.2)

/-- `bufferWriterSyncer.close` (write_syncer.go lines 177-181): stop the
ticker, close the stop channel, then return `s.Sync()`. -/
def BufferWriterSyncer.close (s : BufferWriterSyncer) : BufferWriterSyncer × List Err :=
  let s1 := { s with tickerStopped := true }
  let s2 := { s1 with stopClosed := true }
  s2.Sync

/-- Constant `_defaultBufferSize` = 256 * 1024 bytes. -/
def _defaultBufferSize : Int := 256 * 1024

/-- Constant `_defaultFlushInterval` = 30 seconds, as `time.Duration`
nanoseconds. -/
def _defaultFlushInterval : Int := 30 * 1000000000

/-- Default-selection logic at the top of `Buffer` (write_syncer.go lines
113-126): a buffer size of exactly 0 is replaced by the default, and
likewise a flush interval of exactly 0; every other value, negative ones
included, is passed through unchanged to `bufio.NewWriterSize` and
`time.NewTicker`.  Go's `int` and `time.Duration` are modelled as `Int`
(the values involved are nowhere near 64-bit overflow). -/
def bufferArgs (bufferSize flushInterval : Int) : Int × Int :=
  ((if bufferSize = 0 then _defaultBufferSize else bufferSize),
   (if flushInterval = 0 then _defaultFlushInterval else flushInterval))

/-- The universe of `WriteSyncer` values `Lock` can receive: a raw
destination, the `writerWrapper` adapter, or a `lockedWriteSyncer` holding
an inner syncer.  Constructor shape models the Go dynamic type, so the type
switch in `Lock` matches exactly the `locked` constructor, and returning
the argument itself models returning the same reference. -/
inductive WS where
  | base : Nat → WS
  | wrapped : Nat → WS
  | locked : WS → WS
deriving DecidableEq

/-- `Lock` (write_syncer.go lines 58-64): an already-locked syncer is
returned unchanged (the very argument, not a copy); anything else is
wrapped in a new `lockedWriteSyncer`. -/
def Lock (ws : WS) : WS :=
  match ws with
  | .locked _ => ws
  | _ => .locked ws

/-- The universe of `io.Writer` values `AddSync` can receive: `plain` has no
`Sync` method; `syncer` is a concrete type already implementing
`WriteSyncer`, with the given `Sync` behaviour; `wrapped` is the
`writerWrapper` adapter around a writer. -/
inductive GoWriter where
  | plain : Nat → GoWriter
  | syncer : Nat → List Err → GoWriter
  | wrapped : GoWriter → GoWriter
deriving DecidableEq

/-- Whether the value's dynamic type satisfies the `WriteSyncer` interface:
`writerWrapper` does, since it carries the no-op `Sync`
(write_syncer.go lines 183-189). -/
def isWriteSyncer : GoWriter → Bool
  | .plain _ => false
  | .syncer _ _ => true
  | .wrapped _ => true

/-- `AddSync` (write_syncer.go lines 42-49): the type switch returns a
`WriteSyncer` argument unchanged and wraps anything else in
`writerWrapper`. -/
def AddSync (w : GoWriter) : GoWriter :=
  if isWriteSyncer w then w else .wrapped w

/-- The `Sync` method the value exposes: `none` when the type has no such
method, `some e` when calling it returns the error `e`.
`writerWrapper.Sync` returns nil (write_syncer.go lines 187-189). -/
def GoWriter.Sync : GoWriter → Option (List Err)
  | .plain _ => none
  | .syncer _ e => some e
  | .wrapped _ => some []

/-- An inner destination that accepts every write in full and cleanly. -/
def innerOK : Sink := mkSink (fun p => (p.length, [])) []

/-- The 5-byte payload "12345" of the spec's buffering scenario. -/
def strA : List Nat := [49, 50, 51, 52, 53]

/-- The 13-byte payload "1234567890ABC" of the spec's buffering scenario. -/
def strB : List Nat := [49, 50, 51, 52, 53, 54, 55, 56, 57, 48, 65, 66, 67]

/-- A fresh 10-byte buffered writer over a clean destination. -/
def bw10 : BufioWriter := { wr := innerOK, size := 10, buf := [], err := [] }

/-- Witness instantiating `C9_preflush_failure`: a full 1-byte buffer over a
destination that rejects every write; the 2-byte payload is rejected with
count 0 and the destination's error, and the buffer still holds only the
old byte. -/
def bFail : BufioWriter :=
  { wr := mkSink (fun _ => (0, [Err.tag 9])) [], size := 1, buf := [5], err := [] }

-- Theorems: helper lemmas first, then one theorem per claim with its
-- witness or counterexample.

/-- The fan-out loop writes `p` to every sink in order: each sink's log is
extended by exactly `p`, whatever the accumulated count and error are. -/
theorem multiWriteGo_sinks (ws : List Sink) (p : List Nat) :
    ∀ nW e, (multiWriteGo ws p nW e).1 =
      ws.map (fun w => { w with log := w.log ++ [p] }) := by
  induction ws with
  | nil => intro nW e; rfl
  | cons w ws ih =>
    intro nW e
    simp only [multiWriteGo, List.map_cons]
    rw [ih]
    rfl

/-- The fan-out loop aggregates every sink's error after the accumulator. -/
theorem multiWriteGo_err (ws : List Sink) (p : List Nat) :
    ∀ nW e, (multiWriteGo ws p nW e).2.2 =
      e ++ joinErrs (ws.map (fun w => (w.writeRes p).2)) := by
  induction ws with
  | nil => intro nW e; simp [multiWriteGo, joinErrs]
  | cons w ws ih =>
    intro nW e
    simp only [multiWriteGo, List.map_cons, joinErrs]
    rw [ih]
    simp [Sink.write, List.append_assoc]

/-- The count the fan-out loop computes is the fold of `countStep` over the
per-sink counts, from the accumulator. -/
theorem multiWriteGo_count (ws : List Sink) (p : List Nat) :
    ∀ nW e, (multiWriteGo ws p nW e).2.1 =
      (ws.map (fun w => (w.writeRes p).1)).foldl countStep nW := by
  induction ws with
  | nil => intro nW e; rfl
  | cons w ws ih =>
    intro nW e
    simp only [multiWriteGo, List.map_cons, List.foldl_cons]
    rw [ih]
    rfl

/-- An aggregated error is nil exactly when every constituent is nil. -/
theorem joinErrs_eq_nil (l : List (List Err)) :
    joinErrs l = [] ↔ ∀ e ∈ l, e = [] := by
  induction l with
  | nil => simp [joinErrs]
  | cons e es ih => simp [joinErrs, ih]

/-- Accumulated loop of `multiSync`: sinks are synced in order. -/
theorem multiSyncGo_sinks (ws : List Sink) :
    ∀ e, (multiSyncGo ws e).1 =
      ws.map (fun w => { w with synced := w.synced + 1 }) := by
  induction ws with
  | nil => intro e; rfl
  | cons w ws ih =>
    intro e
    simp only [multiSyncGo, List.map_cons]
    rw [ih]
    rfl

/-- Accumulated loop of `multiSync`: every sink's Sync error is kept. -/
theorem multiSyncGo_err (ws : List Sink) :
    ∀ e, (multiSyncGo ws e).2 = e ++ joinErrs (ws.map Sink.syncRes) := by
  induction ws with
  | nil => intro e; simp [multiSyncGo, joinErrs]
  | cons w ws ih =>
    intro e
    simp only [multiSyncGo, List.map_cons, joinErrs]
    rw [ih]
    simp [Sink.sync, List.append_assoc]

/-- C1 fails as stated: on per-sink counts 3, 0, 5 the spec's policy (take
the first non-zero count, thereafter only strictly smaller counts) yields 0,
but the code's branch `nWritten == 0 && n != 0` fires again after the count
has fallen back to 0, so the code returns 5. -/
theorem C1_counterexample :
    2 ≤ cexSinks.length ∧
    (multiWrite cexSinks [1, 2, 3, 4, 5]).2.1 = 5 ∧
    tieBreakSpec (cexSinks.map (fun w => (w.writeRes [1, 2, 3, 4, 5]).1)) = 0 ∧
    (multiWrite cexSinks [1, 2, 3, 4, 5]).2.1 ≠
      tieBreakSpec (cexSinks.map (fun w => (w.writeRes [1, 2, 3, 4, 5]).1)) := by
  refine ⟨by decide, rfl, rfl, by decide⟩

/-- C1 (amended): for every sink sequence of length ≥ 2 and every payload,
the count returned by `multiWriteSyncer.Write` is the fold, over the
per-sink counts in sequence order starting from 0, of the step "if the
current value is 0 and the sink reports non-zero, take the sink's count;
otherwise, if the sink reports a count strictly smaller than the current
value, take that smaller value (including 0)". -/
theorem C1_count_follows_code_policy (ws : List Sink) (p : List Nat)
    (h : 2 ≤ ws.length) :
    (multiWrite ws p).2.1 = countPolicy (ws.map (fun w => (w.writeRes p).1)) := by
  unfold multiWrite countPolicy
  exact multiWriteGo_count ws p 0 []

/-- Witness instantiating `C1_count_follows_code_policy` on two concrete
sinks. -/
theorem C1_count_witness :
    2 ≤ (cexSinks.take 2).length ∧
    (multiWrite (cexSinks.take 2) [1, 2, 3, 4, 5]).2.1 =
      countPolicy ((cexSinks.take 2).map (fun w => (w.writeRes [1, 2, 3, 4, 5]).1)) :=
  ⟨by decide, C1_count_follows_code_policy (cexSinks.take 2) [1, 2, 3, 4, 5] (by decide)⟩

/-- C3: the fan-out write reaches every sink in sequence order even when
earlier sinks fail (each sink's log is extended by the payload), the
returned error aggregates every sink's error in order without losing any,
and on the spec's scenario `combine(sinkA, sinkB)` with a 4-byte payload the
result is `(4, aggregate(errX))`. -/
theorem C3_no_short_circuit_aggregates :
    (∀ ws p, 2 ≤ ws.length →
      (multiWrite ws p).1 = ws.map (fun w => { w with log := w.log ++ [p] }) ∧
      (multiWrite ws p).2.2 = joinErrs (ws.map (fun w => (w.writeRes p).2))) ∧
    (multiWrite [sinkA, sinkB] [1, 2, 3, 4] =
      ([{ sinkA with log := [[1, 2, 3, 4]] }, { sinkB with log := [[1, 2, 3, 4]] }],
        4, [Err.tag 7])) := by
  constructor
  · intro ws p _
    exact ⟨multiWriteGo_sinks ws p 0 [], by
      have h := multiWriteGo_err ws p 0 []
      simpa using h⟩
  · rfl

/-- Witness instantiating the universal part of
`C3_no_short_circuit_aggregates` on two concrete failing sinks. -/
theorem C3_witness :
    (multiWrite [sinkB, sinkB] [9]).1 =
      [{ sinkB with log := [[9]] }, { sinkB with log := [[9]] }] :=
  (C3_no_short_circuit_aggregates.1 [sinkB, sinkB] [9] (by decide)).1

/-- C7: the fan-out Sync reaches every sink in sequence order
unconditionally, the returned error aggregates every sink's Sync error, and
it is nil exactly when every sink's Sync returned nil. -/
theorem C7_sync_all_aggregates (ws : List Sink) (h : 2 ≤ ws.length) :
    (multiSync ws).1 = ws.map (fun w => { w with synced := w.synced + 1 }) ∧
    (multiSync ws).2 = joinErrs (ws.map Sink.syncRes) ∧
    ((multiSync ws).2 = [] ↔ ∀ w ∈ ws, w.syncRes = []) := by
  refine ⟨multiSyncGo_sinks ws [], by simpa using multiSyncGo_err ws [], ?_⟩
  rw [multiSync, multiSyncGo_err ws []]
  simp only [List.nil_append]
  rw [joinErrs_eq_nil]
  simp

/-- Witness instantiating `C7_sync_all_aggregates` on a clean sink and a
failing sink: the aggregate is the failing sink's error. -/
theorem C7_witness :
    (multiSync [mkSink (fun p => (p.length, [])) [],
                mkSink (fun p => (p.length, [])) [Err.tag 3]]).2 =
      joinErrs ([mkSink (fun p => (p.length, [])) [],
                 mkSink (fun p => (p.length, [])) [Err.tag 3]].map Sink.syncRes) :=
  (C7_sync_all_aggregates
    [mkSink (fun p => (p.length, [])) [],
     mkSink (fun p => (p.length, [])) [Err.tag 3]] (by decide)).2.1

/-- C10: the fan-out constructor accepts the empty sink sequence and returns
the (empty) fan-out wrapper; its write returns `(0, nil)` for every payload
and its Sync returns nil. -/
theorem C10_empty_sequence_ok :
    NewMultiWriteSyncer [] = .multi [] ∧
    (∀ p, multiWrite [] p = ([], 0, [])) ∧
    multiSync [] = ([], []) :=
  ⟨rfl, fun _ => rfl, rfl⟩

/-- C4 fails as stated: `Buffer` tests `bufferSize == 0`, not `<= 0`, so the
negative size -1 and the negative interval -1 are passed through unchanged
instead of being replaced by the 256 KiB / 30 s defaults. -/
theorem C4_counterexample :
    (-1 : Int) ≤ 0 ∧
    (bufferArgs (-1) (-1)).1 = -1 ∧
    (bufferArgs (-1) (-1)).2 = -1 ∧
    (bufferArgs (-1) (-1)).1 ≠ 256 * 1024 ∧
    (bufferArgs (-1) (-1)).2 ≠ 30 * 1000000000 := by
  decide

/-- C4 (amended): a buffer size of exactly 0 selects the 256 KiB default and
a flush interval of exactly 0 selects the 30 s default; every non-zero
value, negative ones included, is passed through uncorrected. -/
theorem C4_defaults (bs fi : Int) :
    bufferArgs 0 0 = (256 * 1024, 30 * 1000000000) ∧
    (bs ≠ 0 → (bufferArgs bs fi).1 = bs) ∧
    (fi ≠ 0 → (bufferArgs bs fi).2 = fi) := by
  refine ⟨by decide, fun h => ?_, fun h => ?_⟩ <;> simp [bufferArgs, h]

/-- Witness instantiating `C4_defaults` at the negative pair (-5, -7). -/
theorem C4_witness :
    (bufferArgs (-5) (-7)).1 = -5 ∧ (bufferArgs (-5) (-7)).2 = -7 :=
  ⟨(C4_defaults (-5) (-7)).2.1 (by decide), (C4_defaults (-5) (-7)).2.2 (by decide)⟩

/-- C5: locking twice is the same as locking once — `Lock` returns an
already-locked syncer unchanged, so no nested lock is ever created. -/
theorem C5_lock_idempotent (s : WS) : Lock (Lock s) = Lock s := by
  cases s <;> rfl

/-- C6: adapting twice equals adapting once (here even as the same value,
which implies behavioural idempotence); a writer that already has the flush
capability is returned unchanged; and a writer without it gets a no-op
flush that always returns nil. -/
theorem C6_addsync_adapter (w : GoWriter) :
    AddSync (AddSync w) = AddSync w ∧
    (isWriteSyncer w = true → AddSync w = w) ∧
    (isWriteSyncer w = false → (AddSync w).Sync = some []) := by
  refine ⟨?_, fun h => ?_, fun h => ?_⟩ <;>
    cases w <;> simp_all [AddSync, isWriteSyncer, GoWriter.Sync]

/-- Witness instantiating `C6_addsync_adapter` on a writer without `Sync`:
the adapter's flush is the nil-returning no-op. -/
theorem C6_witness : (AddSync (.plain 0)).Sync = some [] :=
  (C6_addsync_adapter (.plain 0)).2.2 rfl

/-- A successful flush of a non-empty buffer sends the buffered bytes to the
inner destination as one write and empties the buffer. -/
theorem flush_success_shape (b : BufioWriter) (hbuf : 0 < b.buffered)
    (hfl : (b.flush).2 = []) :
    (b.flush).1 =
      { b with wr := { b.wr with log := b.wr.log ++ [b.buf] }, buf := [] } := by
  have hb0 : ¬ b.buf.length = 0 := by
    simp only [BufioWriter.buffered] at hbuf
    omega
  by_cases he : b.err = []
  · by_cases hc : (b.wr.writeRes b.buf).1 < b.buf.length ∧ (b.wr.writeRes b.buf).2 = []
    · simp [BufioWriter.flush, Sink.write, he, hb0, hc] at hfl
    · by_cases hw : (b.wr.writeRes b.buf).2 = []
      · have hlt : ¬ (b.wr.writeRes b.buf).1 < b.buf.length := fun hl => hc ⟨hl, hw⟩
        simp [BufioWriter.flush, Sink.write, he, hb0, hc, hw, hlt]
      · simp [BufioWriter.flush, Sink.write, he, hb0, hc, hw] at hfl
  · simp [BufioWriter.flush, he] at hfl

/-- Flushing never adds payload bytes to the buffer: the buffer afterwards
is a tail of the buffer before (all of it, the unwritten part, or empty). -/
theorem flush_buf_tail (b : BufioWriter) : ∃ k, (b.flush).1.buf = b.buf.drop k := by
  by_cases he : b.err = []
  · by_cases hb0 : b.buf.length = 0
    · exact ⟨0, by simp [BufioWriter.flush, he, hb0]⟩
    · by_cases hc : (b.wr.writeRes b.buf).1 < b.buf.length ∧ (b.wr.writeRes b.buf).2 = []
      · exact ⟨(b.wr.writeRes b.buf).1, by simp [BufioWriter.flush, Sink.write, he, hb0, hc]⟩
      · by_cases hw : (b.wr.writeRes b.buf).2 = []
        · have hlt : ¬ (b.wr.writeRes b.buf).1 < b.buf.length := fun hl => hc ⟨hl, hw⟩
          exact ⟨b.buf.length,
            by simp [BufioWriter.flush, Sink.write, he, hb0, hc, hw, hlt]⟩
        · exact ⟨(b.wr.writeRes b.buf).1,
            by simp [BufioWriter.flush, Sink.write, he, hb0, hc, hw]⟩
  · exact ⟨0, by simp [BufioWriter.flush, he]⟩

/-- Flushing a non-empty buffer with no sticky error hands the buffered
bytes to the inner destination as one write, whether or not that write
succeeds. -/
theorem flush_writes_log (b : BufioWriter) (he : b.err = []) (hb : b.buf ≠ []) :
    (b.flush).1.wr.log = b.wr.log ++ [b.buf] := by
  have hb0 : ¬ b.buf.length = 0 := by simpa using hb
  by_cases hc : (b.wr.writeRes b.buf).1 < b.buf.length ∧ (b.wr.writeRes b.buf).2 = []
  · simp [BufioWriter.flush, Sink.write, he, hb0, hc]
  · by_cases hw : (b.wr.writeRes b.buf).2 = []
    · have hlt : ¬ (b.wr.writeRes b.buf).1 < b.buf.length := fun hl => hc ⟨hl, hw⟩
      simp [BufioWriter.flush, Sink.write, he, hb0, hc, hw, hlt]
    · simp [BufioWriter.flush, Sink.write, he, hb0, hc, hw]

/-- C2: the pre-flush rule of `bufferWriterSyncer.Write`.  When the payload
exceeds the free room and the buffer is non-empty, the buffered bytes are
flushed to the inner destination first (reaching it as one write) and only
then is the payload appended through the cleared buffered writer; when the
buffer is empty or the payload fits, the write proceeds with no pre-flush.
On the spec's scenario (buffer size 10), "12345" is buffered with count 5
and no write reaches the destination, and the following "1234567890ABC"
makes the destination receive "12345" as one write and then
"1234567890ABC" as one direct write, with count 13. -/
theorem C2_preflush_rule :
    (∀ b : BufioWriter, ∀ p : List Nat,
      p.length > b.available → 0 < b.buffered → (b.flush).2 = [] →
      bufferWrite b p =
        BufioWriter.write
          { b with wr := { b.wr with log := b.wr.log ++ [b.buf] }, buf := [] } p) ∧
    (∀ b : BufioWriter, ∀ p : List Nat,
      ¬ (p.length > b.available ∧ 0 < b.buffered) →
      bufferWrite b p = b.write p) ∧
    ((bufferWrite bw10 strA).2.1 = 5 ∧
     (bufferWrite bw10 strA).2.2 = [] ∧
     (bufferWrite bw10 strA).1.wr.log = [] ∧
     (bufferWrite bw10 strA).1.buf = strA) ∧
    ((bufferWrite (bufferWrite bw10 strA).1 strB).2.1 = 13 ∧
     (bufferWrite (bufferWrite bw10 strA).1 strB).2.2 = [] ∧
     (bufferWrite (bufferWrite bw10 strA).1 strB).1.wr.log = [strA, strB] ∧
     (bufferWrite (bufferWrite bw10 strA).1 strB).1.buf = []) := by
  refine ⟨?_, ?_, ⟨rfl, rfl, rfl, rfl⟩, ⟨rfl, rfl, rfl, rfl⟩⟩
  · intro b p hlen hbuf hfl
    rw [← flush_success_shape b hbuf hfl]
    simp only [bufferWrite, hlen, hbuf, and_self, if_true, hfl, ite_true]
    simp [hfl]
  · intro b p hcond
    simp [bufferWrite, hcond]

/-- Witness instantiating both universal parts of `C2_preflush_rule`: a
3-byte payload against a 3-byte buffer holding one byte pre-flushes, and
the same payload against an empty buffer does not. -/
theorem C2_witness :
    bufferWrite { wr := innerOK, size := 3, buf := [7], err := [] } [1, 2, 3] =
      BufioWriter.write
        { wr := { innerOK with log := [[7]] }, size := 3, buf := [], err := [] }
        [1, 2, 3] ∧
    bufferWrite { wr := innerOK, size := 3, buf := [], err := [] } [1, 2, 3] =
      BufioWriter.write { wr := innerOK, size := 3, buf := [], err := [] } [1, 2, 3] := by
  constructor
  · have h := C2_preflush_rule.1
      { wr := innerOK, size := 3, buf := [7], err := [] } [1, 2, 3]
      (by decide) (by decide) (by decide)
    simpa [innerOK, mkSink] using h
  · exact C2_preflush_rule.2.1
      { wr := innerOK, size := 3, buf := [], err := [] } [1, 2, 3] (by decide)

/-- C9: when the pre-flush inside `bufferWriterSyncer.Write` fails, the call
returns count 0 together with the flush error, and the payload is not
appended anywhere: the resulting state is exactly the failed-flush state,
whose buffer is a tail of the old buffered bytes (no byte of the payload is
buffered and the payload never reaches the inner destination). -/
theorem C9_preflush_failure (b : BufioWriter) (p : List Nat)
    (hlen : p.length > b.available) (hbuf : 0 < b.buffered)
    (hfl : (b.flush).2 ≠ []) :
    bufferWrite b p = ((b.flush).1, 0, (b.flush).2) ∧
    (∃ k, (bufferWrite b p).1.buf = b.buf.drop k) ∧
    (bufferWrite b p).2.1 = 0 := by
  have main : bufferWrite b p = ((b.flush).1, 0, (b.flush).2) := by
    simp [bufferWrite, hlen, hbuf, hfl]
  refine ⟨main, ?_, by rw [main]⟩
  rw [main]
  exact flush_buf_tail b

theorem C9_witness :
    bufferWrite bFail [1, 2] = ((bFail.flush).1, 0, (bFail.flush).2) :=
  (C9_preflush_failure bFail [1, 2] (by decide) (by decide) (by decide)).1

/-- C8: `close` stops the ticker, closes the stop channel, then performs one
final flush of the buffered writer and hands that flush's error to the
caller; with no sticky error and a non-empty buffer the remaining buffered
bytes reach the inner destination as one write. -/
theorem C8_close_flushes (s : BufferWriterSyncer) :
    (s.close).1.tickerStopped = true ∧
    (s.close).1.stopClosed = true ∧
    (s.close).1.bufferWriter = (s.bufferWriter.flush).1 ∧
    (s.close).2 = (s.bufferWriter.flush).2 ∧
    (s.bufferWriter.err = [] → s.bufferWriter.buf ≠ [] →
      (s.close).1.bufferWriter.wr.log = s.bufferWriter.wr.log ++ [s.bufferWriter.buf]) := by
  refine ⟨rfl, rfl, rfl, rfl, fun he hb => ?_⟩
  exact flush_writes_log s.bufferWriter he hb

/-- Witness instantiating `C8_close_flushes`: closing a syncer holding two
buffered bytes writes them to the clean inner destination. -/
theorem C8_witness :
    (BufferWriterSyncer.close
      { bufferWriter := { wr := innerOK, size := 4, buf := [1, 2], err := [] },
        tickerStopped := false, stopClosed := false }).1.bufferWriter.wr.log =
      ({ wr := innerOK, size := 4, buf := [1, 2], err := [] } : BufioWriter).wr.log ++
        [[1, 2]] :=
  (C8_close_flushes
    { bufferWriter := { wr := innerOK, size := 4, buf := [1, 2], err := [] },
      tickerStopped := false, stopClosed := false }).2.2.2.2 rfl (by decide)
